import Mathlib

/-!
Verification model of the cold-call turn-decision engine
(`backend/app/domain/state.py`, `qualification.py`, `decision_engine.py`,
`outcome.py`, `backend/app/usecases/process_input.py`, `end_call.py`,
`backend/app/infra/session_store.py`).

Python floats are modelled as exact rationals (every constant the code uses
is an exact decimal, so the arithmetic agrees everywhere a theorem below
looks); Python `None`-able fields become `Option`; the in-place mutation of
`ProspectState`, `DecisionTrace` and the session store becomes explicit state
passing.  Strings are processed over `List Char`, with the handful of regular
expressions of `state.py` expanded into their finite lists of word-bounded
literal alternatives (each expansion is recorded next to the original
pattern).
-/

set_option allowUnsafeReducibility true

attribute [semireducible] Rat.add Rat.sub Rat.mul Rat.div Rat.inv Rat.neg Rat.blt Rat.normalize Rat.floor

set_option linter.unusedVariables false

namespace CallSim

/-! ## Python string primitives, modelled over `List Char`

`str.lower`/`str.upper` are modelled on ASCII (every pattern and reason code
in the source is ASCII), `str.strip`/`str.split` on the same whitespace class
Python uses for ASCII text, and `re` word boundaries (`\b`) via the `\w`
class `[A-Za-z0-9_]`. -/

def asciiLower (c : Char) : Char :=
  if 65 ≤ c.toNat ∧ c.toNat ≤ 90 then Char.ofNat (c.toNat + 32) else c

def asciiUpper (c : Char) : Char :=
  if 97 ≤ c.toNat ∧ c.toNat ≤ 122 then Char.ofNat (c.toNat - 32) else c

/-- Model of Python `str.upper()` (ASCII range). -/
def pyUpper (s : String) : String :=
  ⟨s.data.map asciiUpper⟩

/-- Python truthiness of an optional string: present and non-empty. -/
def pyTruthy : Option String → Bool
  | some s => s != ""
  | none => false

def isSpaceChar (c : Char) : Bool :=
  c == ' ' || c == '\t' || c == '\n' || c == '\r' || c == '\x0b' || c == '\x0c'

def isDigitChar (c : Char) : Bool :=
  48 ≤ c.toNat && c.toNat ≤ 57

/-- Python's `\w` class for ASCII text: letters, digits, underscore. -/
def isWordChar (c : Char) : Bool :=
  (97 ≤ c.toNat && c.toNat ≤ 122) || (65 ≤ c.toNat && c.toNat ≤ 90) ||
    (48 ≤ c.toNat && c.toNat ≤ 57) || c.toNat == 95

def dropLeadingSpaces : List Char → List Char
  | [] => []
  | c :: cs => if isSpaceChar c then dropLeadingSpaces cs else c :: cs

/-- Model of Python `str.strip()`. -/
def pyStrip (l : List Char) : List Char :=
  (dropLeadingSpaces (dropLeadingSpaces l.reverse).reverse)

/-- `len(text.split())`: number of maximal runs of non-whitespace. -/
def wordCountAux : Bool → List Char → Nat
  | _, [] => 0
  | inWord, c :: cs =>
    if isSpaceChar c then wordCountAux false cs
    else (if inWord then 0 else 1) + wordCountAux true cs

def wordCount (l : List Char) : Nat :=
  wordCountAux false l

/-- Model of Python `sep.join(parts)`. -/
def pyJoin (sep : String) : List String → String
  | [] => ""
  | [x] => x
  | x :: xs => x ++ sep ++ pyJoin sep xs

/-- Match `pat` as a literal prefix of `txt`, returning the remainder. -/
def matchLit : List Char → List Char → Option (List Char)
  | [], rest => some rest
  | _ :: _, [] => none
  | p :: ps, c :: cs => if p == c then matchLit ps cs else none

/-- Match a word-bounded literal at the current position (its left boundary
is checked by the callers via the preceding character) and return the
remainder after it; every literal below starts and ends with a `\w`
character, so `\b` on the right means end-of-text or a non-word character. -/
def litHereTail (pat : List Char) (txt : List Char) : Option (List Char) :=
  match matchLit pat txt with
  | some rest =>
    match rest with
    | [] => some []
    | r :: _ => if isWordChar r then none else some rest
  | none => none

def litHere (pat : List Char) (txt : List Char) : Bool :=
  (litHereTail pat txt).isSome

/-- `re.search(r"\bpat\b", text) is not None` for a literal `pat`: scan every
position, carrying whether the previous character is a word character. -/
def searchLitAux (pat : List Char) : Bool → List Char → Bool
  | _, [] => false
  | prevWord, c :: cs =>
    (!prevWord && litHere pat (c :: cs)) || searchLitAux pat (isWordChar c) cs

def searchWord (pat : String) (text : List Char) : Bool :=
  searchLitAux pat.data false text

/-- A pattern that is an alternation of word-bounded literals: `re.search`
succeeds iff some alternative occurs. -/
def searchAnyWord (pats : List String) (text : List Char) : Bool :=
  pats.any (fun p => searchWord p text)

/-- `re.search` with a captured alternation (used for the timeline pattern):
the leftmost position wins, and there the first alternative (in pattern
order) that matches; `group(0)` is that literal (the text is lowercase). -/
def searchFirstAlt (pats : List String) : Bool → List Char → Option String
  | _, [] => none
  | prevWord, c :: cs =>
    match (if !prevWord then pats.find? (fun p => litHere p.data (c :: cs)) else none) with
    | some p => some p
    | none => searchFirstAlt pats (isWordChar c) cs

/-- Scan for some word-bounded alternative, stopping at a newline (used for
the `.*` gap below: `.` does not match a newline in Python). -/
def searchAnyBeforeNewline (pats : List String) : Bool → List Char → Bool
  | _, [] => false
  | prevWord, c :: cs =>
    if c == '\n' then false
    else (!prevWord && pats.any (fun p => litHere p.data (c :: cs))) ||
      searchAnyBeforeNewline pats (isWordChar c) cs

/-- `re.search(r"\b(alts1)\b.*\b(alts2)\b", text)`: some first-group
alternative occurs word-bounded, and after it (with no intervening newline)
some second-group alternative occurs word-bounded. -/
def searchSeqAux (alts1 alts2 : List String) : Bool → List Char → Bool
  | _, [] => false
  | prevWord, c :: cs =>
    (!prevWord && alts1.any (fun a =>
      match litHereTail a.data (c :: cs) with
      | some rest => searchAnyBeforeNewline alts2 true rest
      | none => false)) ||
    searchSeqAux alts1 alts2 (isWordChar c) cs

def searchSeq (alts1 alts2 : List String) (text : List Char) : Bool :=
  searchSeqAux alts1 alts2 false text

/-- Python `pat in text` (plain substring, no word boundaries). -/
def containsSub (pat : String) : List Char → Bool
  | [] => pat.data.isEmpty
  | c :: cs => (matchLit pat.data (c :: cs)).isSome || containsSub pat cs

/-- `(\d+)` at the current position (maximal digit run), as digits/rest. -/
def digitRun : List Char → List Char × List Char
  | [] => ([], [])
  | c :: cs =>
    if isDigitChar c then
      let p := digitRun cs
      (c :: p.1, p.2)
    else ([], c :: cs)

/-- `\s*`: skip whitespace greedily. -/
def skipSpaces : List Char → List Char
  | [] => []
  | c :: cs => if isSpaceChar c then skipSpaces cs else c :: cs

def natFromDigits (l : List Char) : Nat :=
  l.foldl (fun acc c => acc * 10 + (c.toNat - 48)) 0

/-! ## Call stages and qualification slots (`domain/state.py`) -/

/-- `CallStage` — conversation phases. -/
inductive CallStage
  | INTRO
  | DISCOVERY
  | QUALIFY
  | OBJECTION
  | CLOSE
  | END
deriving DecidableEq

/-- `CallStage.value` (the `str` payload of the Python enum). -/
def CallStage.value : CallStage → String
  | .INTRO => "INTRO"
  | .DISCOVERY => "DISCOVERY"
  | .QUALIFY => "QUALIFY"
  | .OBJECTION => "OBJECTION"
  | .CLOSE => "CLOSE"
  | .END => "END"

/-- `QUALIFICATION_SLOTS` — the five BANT+ qualification slots. -/
def QUALIFICATION_SLOTS : List String :=
  ["pain", "company_size", "authority", "budget", "timeline"]

/-- `SLOT_PRIORITY` — preferred probing order. -/
def SLOT_PRIORITY : List String :=
  ["pain", "company_size", "authority", "budget", "timeline"]

/-- `ExtractedSignals` — structured signals from one user utterance.
Python defaults: intent `"answer"`, every slot `None`, confidence `0.5`. -/
structure ExtractedSignals where
  intent : String
  company_size : Option Int
  pain : Option Int
  budget : Option Bool
  authority : Option Bool
  timeline : Option String
  objection_type : Option String
  confidence : ℚ
deriving DecidableEq

/-- `ExtractedSignals()` — the dataclass's default construction. -/
def ExtractedSignals.init : ExtractedSignals :=
  { intent := "answer", company_size := none, pain := none, budget := none,
    authority := none, timeline := none, objection_type := none, confidence := 1/2 }

/-! ## Rule-based signal extractor (`state.py`, `extract_signals_rule_based`)

Each `_OBJECTION_PATTERNS` / `_END_PATTERNS` regex is an alternation of
word-bounded literals once the optional groups are expanded; the expansion
stands beside the original pattern. -/

/-- `_OBJECTION_PATTERNS`: `(regex, objection_type)` in priority order.
`\bnot interested\b`; `\bno thanks\b`; `\bdon'?t need\b`;
`\balready (?:use|have|got)\b`; `\bwe use\b`; `\btoo expensive\b`;
`\bcan'?t afford\b`; `\bno budget\b`;
`\bsend (?:me |an )?(?:email|details|info)\b`; `\bjust (?:email|send)\b`;
`\bbusy\b`; `\bbad time\b`; `\bcall (?:me )?back\b`. -/
def OBJECTION_PATTERNS : List (List String × String) :=
  [(["not interested"], "not_interested"),
   (["no thanks"], "not_interested"),
   (["don't need", "dont need"], "not_interested"),
   (["already use", "already have", "already got"], "already_have_tool"),
   (["we use"], "already_have_tool"),
   (["too expensive"], "too_expensive"),
   (["can't afford", "cant afford"], "too_expensive"),
   (["no budget"], "too_expensive"),
   (["send email", "send details", "send info",
     "send me email", "send me details", "send me info",
     "send an email", "send an details", "send an info"], "send_email"),
   (["just email", "just send"], "send_email"),
   (["busy"], "busy"),
   (["bad time"], "busy"),
   (["call back", "call me back"], "busy")]

/-- `_END_PATTERNS`: `\bgoodbye\b`; `\bhang up\b`; `\bgotta go\b`;
`\bend (?:the )?call\b`. -/
def END_PATTERNS : List (List String) :=
  [["goodbye"], ["hang up"], ["gotta go"], ["end call", "end the call"]]

/-- The nouns of the company-size pattern
`(\d+)\s*(?:people|employees|folks|team|person|engineers|devs)` (no trailing
`\b` in the source, so a plain prefix match). -/
def SIZE_NOUNS : List String :=
  ["people", "employees", "folks", "team", "person", "engineers", "devs"]

/-- `pain_keywords` — keyword → severity, in the source's dict order (the
result takes the max severity, so the order is immaterial). -/
def PAIN_KEYWORDS : List (String × Int) :=
  [("struggling", 8), ("painful", 8), ("frustrated", 7), ("waste", 7),
   ("slow", 6), ("manual", 6), ("tedious", 6), ("hours", 5),
   ("annoying", 5), ("problem", 5), ("issue", 4), ("challenge", 4)]

/-- The `max_pain` loop: maximum severity among the keywords occurring as
substrings, `none` when none occurs. -/
def maxPain (text : List Char) : Option Int :=
  PAIN_KEYWORDS.foldl
    (fun acc kw =>
      if containsSub kw.1 text then
        match acc with
        | none => some kw.2
        | some m => if kw.2 > m then some kw.2 else some m
      else acc)
    none

/-- The company-size search: leftmost digit run followed by `\s*` and one of
`SIZE_NOUNS`; `group(1)` is the digit run. -/
def findCompanySize : List Char → Option Nat
  | [] => none
  | c :: cs =>
    if isDigitChar c then
      let p := digitRun (c :: cs)
      if SIZE_NOUNS.any (fun noun => (matchLit noun.data (skipSpaces p.2)).isSome) then
        some (natFromDigits p.1)
      else findCompanySize cs
    else findCompanySize cs

/-- Budget: `\b(?:have|got|set aside|allocated)\b.*\bbudget\b`. -/
def BUDGET_YES_HEADS : List String := ["have", "got", "set aside", "allocated"]

/-- Budget: `\b(?:no budget|can'?t afford|too expensive)\b`. -/
def BUDGET_NO_ALTS : List String :=
  ["no budget", "can't afford", "cant afford", "too expensive"]

/-- Budget: `\bbudget\b.*\b(?:maybe|depends|later|next quarter)\b`. -/
def BUDGET_SOFT_TAILS : List String := ["maybe", "depends", "later", "next quarter"]

/-- Authority: `\b(?:need to ask|check with|my boss|my manager|not the decision)\b`. -/
def AUTHORITY_NEG_ALTS : List String :=
  ["need to ask", "check with", "my boss", "my manager", "not the decision"]

/-- Authority: `\bi (?:decide|approve|sign off|own|handle|make the call)\b`. -/
def AUTHORITY_POS_ALTS : List String :=
  ["i decide", "i approve", "i sign off", "i own", "i handle", "i make the call"]

/-- Authority: `\b(?:vp|director|head of|cto|ceo|founder)\b`. -/
def AUTHORITY_TITLE_ALTS : List String :=
  ["vp", "director", "head of", "cto", "ceo", "founder"]

/-- Timeline: `\b(?:this quarter|next quarter|q[1-4]|this month|next month|this
year|next year|asap|immediately|soon|later|no rush)\b`, `q[1-4]` expanded. -/
def TIMELINE_ALTS : List String :=
  ["this quarter", "next quarter", "q1", "q2", "q3", "q4", "this month",
   "next month", "this year", "next year", "asap", "immediately", "soon",
   "later", "no rush"]

/-- Greeting check: `\b(?:hello|hi|hey|what'?s this|who is this)\b`. -/
def GREETING_ALTS : List String :=
  ["hello", "hi", "hey", "what's this", "whats this", "who is this"]

/-- `extract_signals_rule_based` — deterministic keyword extraction.
`text = user_text.lower().strip()`; the sequential mutations of `signals`
become a chain of record updates. -/
def extract_signals_rule_based (user_text : String) : ExtractedSignals :=
  let text := pyStrip (user_text.data.map asciiLower)
  if END_PATTERNS.any (fun alts => searchAnyWord alts text) then
    { ExtractedSignals.init with intent := "end", confidence := 8/10 }
  else
    let s1 :=
      match OBJECTION_PATTERNS.find? (fun pr => searchAnyWord pr.1 text) with
      | some pr =>
        { ExtractedSignals.init with
            intent := "objection", objection_type := some pr.2, confidence := 7/10 }
      | none => ExtractedSignals.init
    let s2 :=
      match findCompanySize text with
      | some n =>
        { s1 with company_size := some (n : Int), confidence := max s1.confidence (7/10) }
      | none => s1
    let s3 :=
      match maxPain text with
      | some p => { s2 with pain := some p }
      | none => s2
    let s4 :=
      if searchSeq BUDGET_YES_HEADS ["budget"] text then
        { s3 with budget := some true }
      else if searchAnyWord BUDGET_NO_ALTS text then
        { s3 with budget := some false }
      else if searchSeq ["budget"] BUDGET_SOFT_TAILS text then
        { s3 with budget := some false, timeline := some "uncertain" }
      else s3
    let s5 :=
      if searchAnyWord AUTHORITY_NEG_ALTS text then
        { s4 with authority := some false }
      else if searchAnyWord AUTHORITY_POS_ALTS text then
        { s4 with authority := some true, confidence := max s4.confidence (7/10) }
      else if searchAnyWord AUTHORITY_TITLE_ALTS text then
        { s4 with authority := some true }
      else s4
    let s6 :=
      match searchFirstAlt TIMELINE_ALTS false text with
      | some t => { s5 with timeline := some t }
      | none => s5
    let has_slots :=
      s6.company_size.isSome || s6.pain.isSome || s6.budget.isSome ||
        s6.authority.isSome || s6.timeline.isSome
    let s7 := if has_slots then { s6 with confidence := max s6.confidence (6/10) } else s6
    if s7.intent = "answer" ∧ ¬ has_slots then
      if searchAnyWord GREETING_ALTS text then
        { s7 with intent := "answer", confidence := 6/10 }
      else if wordCount text ≤ 3 then
        { s7 with intent := "off_topic", confidence := 3/10 }
      else s7
    else s7

/-! ## Prospect state (`domain/state.py`, `ProspectState`) -/

/-- `learned_fields` — the flat dict over the five slots, each `None` until
filled (typed per slot here; the Python dict holds `Any`). -/
structure LearnedFields where
  company_size : Option Int
  pain : Option Int
  budget : Option Bool
  authority : Option Bool
  timeline : Option String
deriving DecidableEq

/-- The initial `learned_fields` dict (all five slots `None`). -/
def LearnedFields.init : LearnedFields :=
  { company_size := none, pain := none, budget := none, authority := none,
    timeline := none }

/-- `learned_fields.get(slot) is None` (a key outside the five yields `None`). -/
def LearnedFields.slotIsNone (lf : LearnedFields) (slot : String) : Bool :=
  if slot == "pain" then lf.pain.isNone
  else if slot == "company_size" then lf.company_size.isNone
  else if slot == "budget" then lf.budget.isNone
  else if slot == "authority" then lf.authority.isNone
  else if slot == "timeline" then lf.timeline.isNone
  else true

/-- `ProspectState` — everything learned during the call. -/
structure ProspectState where
  session_id : String
  stage : CallStage
  turn_count : Nat
  learned_fields : LearnedFields
  objections : List String
  interest_score : ℚ
  last_user_text : Option String
  last_agent_text : Option String
deriving DecidableEq

/-- `ProspectState()` — dataclass defaults. -/
def ProspectState.init : ProspectState :=
  { session_id := "", stage := .INTRO, turn_count := 0,
    learned_fields := LearnedFields.init, objections := [], interest_score := 0,
    last_user_text := none, last_agent_text := none }

/-- `missing_slots` — unfilled slot names in priority order. -/
def ProspectState.missing_slots (self : ProspectState) : List String :=
  SLOT_PRIORITY.filter (fun s => self.learned_fields.slotIsNone s)

/-- `filled_slots` — filled slot names. -/
def ProspectState.filled_slots (self : ProspectState) : List String :=
  QUALIFICATION_SLOTS.filter (fun s => ! self.learned_fields.slotIsNone s)

/-- `update_from_signals` — merge extracted signals into `learned_fields`.
A slot is filled only when the signal value is present, the slot is still
`None` (never overwrite learned values) and `confidence >= min_confidence`;
objections are appended (if new and non-empty — Python truthiness) regardless
of confidence. -/
def ProspectState.update_from_signals (self : ProspectState)
    (signals : ExtractedSignals) (min_confidence : ℚ) : ProspectState :=
  let meets_confidence := min_confidence ≤ signals.confidence
  let lf0 := self.learned_fields
  let lf1 :=
    if meets_confidence ∧ signals.company_size.isSome ∧ lf0.company_size.isNone then
      { lf0 with company_size := signals.company_size }
    else lf0
  let lf2 :=
    if meets_confidence ∧ signals.pain.isSome ∧ lf1.pain.isNone then
      { lf1 with pain := signals.pain }
    else lf1
  let lf3 :=
    if meets_confidence ∧ signals.budget.isSome ∧ lf2.budget.isNone then
      { lf2 with budget := signals.budget }
    else lf2
  let lf4 :=
    if meets_confidence ∧ signals.authority.isSome ∧ lf3.authority.isNone then
      { lf3 with authority := signals.authority }
    else lf3
  let lf5 :=
    if meets_confidence ∧ signals.timeline.isSome ∧ lf4.timeline.isNone then
      { lf4 with timeline := signals.timeline }
    else lf4
  let objections :=
    match signals.objection_type with
    | some t =>
      if t ≠ "" ∧ ¬ self.objections.contains t then self.objections ++ [t]
      else self.objections
    | none => self.objections
  { self with learned_fields := lf5, objections := objections }

/-- `Action` — the decision engine's output. -/
structure Action where
  type : String
  slot : Option String
  message_goal : String
  reason_codes : List String
deriving DecidableEq

/-- `TraceTurn` — one turn's audit record (`extracted`/`action` are stored as
dicts in Python via `to_dict`; the dicts carry exactly these fields). -/
structure TraceTurn where
  turn_index : Nat
  user_text : Option String
  agent_text : Option String
  extracted : ExtractedSignals
  action : Action
  score_before : ℚ
  score_after : ℚ
  reasons : List String
  stage_before : String
  stage_after : String
  extracted_source : String
  wording_source : String
deriving DecidableEq

/-- `DecisionTrace` — the per-call audit log. -/
structure DecisionTrace where
  session_id : String
  turns : List TraceTurn
  ended_reason : Option String
deriving DecidableEq

/-- `DecisionTrace.add_turn` — append a fully-formed trace turn. -/
def DecisionTrace.add_turn (trace : DecisionTrace) (turn_index : Nat)
    (user_text agent_text : Option String) (extracted : ExtractedSignals)
    (action : Action) (score_before score_after : ℚ)
    (stage_before stage_after : CallStage)
    (extracted_source wording_source : String) : DecisionTrace :=
  { trace with
      turns := trace.turns ++
        [{ turn_index := turn_index, user_text := user_text,
           agent_text := agent_text, extracted := extracted, action := action,
           score_before := score_before, score_after := score_after,
           reasons := action.reason_codes, stage_before := stage_before.value,
           stage_after := stage_after.value,
           extracted_source := extracted_source,
           wording_source := wording_source }] }

/-! ## Scoring (`domain/qualification.py`) -/

/-- `_STRONG_OBJECTIONS` (a Python set; only membership is used). -/
def STRONG_OBJECTIONS : List String :=
  ["already_have_tool", "not_interested", "too_expensive"]

/-- `_MILD_OBJECTIONS`. -/
def MILD_OBJECTIONS : List String := ["send_email", "busy"]

/-- The objection-penalty accumulation both `score_opportunity` and
`score_breakdown` run over `state.objections`: `+1.0` per strong entry,
`+0.5` per mild entry. -/
def objPenalty : List String → ℚ
  | [] => 0
  | obj :: rest =>
    (if STRONG_OBJECTIONS.contains obj then 1
     else if MILD_OBJECTIONS.contains obj then 1/2
     else 0) + objPenalty rest

/-- `score_opportunity` — additive model clamped to [0, 10]; recomputed from
the full state, the `signals` argument is unused in the source. -/
def score_opportunity (state : ProspectState) (signals : ExtractedSignals) : ℚ :=
  let s1 : ℚ :=
    match state.learned_fields.pain with
    | some p => if 7 ≤ p then 2 else if 4 ≤ p then 1 else 0
    | none => 0
  let s2 :=
    match state.learned_fields.company_size with
    | some n => if 20 ≤ n then s1 + 1 else s1
    | none => s1
  let s3 := if state.learned_fields.authority = some true then s2 + 2 else s2
  let s4 := if state.learned_fields.budget = some true then s3 + 2 else s3
  let s5 :=
    match state.learned_fields.timeline with
    | some t => if t ≠ "unknown" then s4 + 1 else s4
    | none => s4
  let s6 := s5 - min (objPenalty state.objections) 2
  max 0 (min 10 s6)

/-- One line of `score_breakdown`. -/
structure BreakdownItem where
  field : String
  points : ℚ
  reason : String
deriving DecidableEq

/-- Python `round(x, 1)` on the scale of tenths: round half to even. -/
def roundHalfEvenTenths (q : ℚ) : ℤ :=
  if q * 10 - (Rat.floor (q * 10) : ℚ) < 1/2 then Rat.floor (q * 10)
  else if 1/2 < q * 10 - (Rat.floor (q * 10) : ℚ) then Rat.floor (q * 10) + 1
  else if Rat.floor (q * 10) % 2 = 0 then Rat.floor (q * 10)
  else Rat.floor (q * 10) + 1

/-- Python `round(x, 1)` as a rational. -/
def round1 (q : ℚ) : ℚ :=
  (roundHalfEvenTenths q : ℚ) / 10

/-- The objection line-items `score_breakdown` builds (before the cap). -/
def objItems : List String → List BreakdownItem
  | [] => []
  | obj :: rest =>
    if STRONG_OBJECTIONS.contains obj then
      { field := "objection", points := -1,
        reason := "Objection: " ++ obj } :: objItems rest
    else if MILD_OBJECTIONS.contains obj then
      { field := "objection", points := -1/2,
        reason := "Mild objection: " ++ obj } :: objItems rest
    else objItems rest

/-- The `pain` item of `score_breakdown`. -/
def painItems (lf : LearnedFields) : List BreakdownItem :=
  match lf.pain with
  | some p =>
    if 7 ≤ p then
      [{ field := "pain", points := 2,
         reason := "Strong pain signal (" ++ toString p ++ "/10)" }]
    else if 4 ≤ p then
      [{ field := "pain", points := 1,
         reason := "Moderate pain (" ++ toString p ++ "/10)" }]
    else
      [{ field := "pain", points := 0,
         reason := "Low pain (" ++ toString p ++ "/10)" }]
  | none => []

/-- The `company_size` item of `score_breakdown`. -/
def sizeItems (lf : LearnedFields) : List BreakdownItem :=
  match lf.company_size with
  | some n =>
    if 20 ≤ n then
      [{ field := "company_size", points := 1,
         reason := "Meaningful account (" ++ toString n ++ " employees)" }]
    else
      [{ field := "company_size", points := 0,
         reason := "Small account (" ++ toString n ++ " employees)" }]
  | none => []

/-- The `authority` item of `score_breakdown`. -/
def authorityItems (lf : LearnedFields) : List BreakdownItem :=
  if lf.authority = some true then
    [{ field := "authority", points := 2, reason := "Decision-maker confirmed" }]
  else if lf.authority = some false then
    [{ field := "authority", points := 0, reason := "Not a decision-maker" }]
  else []

/-- The `budget` item of `score_breakdown`. -/
def budgetItems (lf : LearnedFields) : List BreakdownItem :=
  if lf.budget = some true then
    [{ field := "budget", points := 2, reason := "Budget available" }]
  else if lf.budget = some false then
    [{ field := "budget", points := 0, reason := "No budget" }]
  else []

/-- The `timeline` item of `score_breakdown`. -/
def timelineItems (lf : LearnedFields) : List BreakdownItem :=
  match lf.timeline with
  | some t =>
    if t ≠ "unknown" then
      [{ field := "timeline", points := 1, reason := "Timeline: " ++ t }]
    else []
  | none => []

/-- The objection section of the breakdown after the cap: when the raw
penalty exceeds 2.0 and there are objection items, each item's points are
multiplied by `scale = 2.0 / objection_penalty` and rounded via
`round(…, 1)`. -/
def cappedObjItems (objs : List String) : List BreakdownItem :=
  if 2 < objPenalty objs ∧ ¬ (objItems objs).isEmpty then
    (objItems objs).map
      (fun it => { it with points := round1 (it.points * (2 / objPenalty objs)) })
  else objItems objs

/-- `score_breakdown` — itemized scoring contributions, positives first,
then the (possibly rescaled) objection items. -/
def score_breakdown (state : ProspectState) : List BreakdownItem :=
  painItems state.learned_fields ++ sizeItems state.learned_fields ++
    authorityItems state.learned_fields ++ budgetItems state.learned_fields ++
    timelineItems state.learned_fields ++ cappedObjItems state.objections

/-- `label_from_score` — Weak / Medium / Strong thresholds. -/
def label_from_score (score : ℚ) : String :=
  if score < 4 then "Weak"
  else if score < 7 then "Medium"
  else "Strong"

/-- `score_opportunity_with_breakdown` — `(score, items, explanation)`;
`{score:.1f}` becomes `fmtFixed1` below. -/
def fmtFixed1 (q : ℚ) : String :=
  let n := roundHalfEvenTenths q
  let m := n.natAbs
  let s := toString (m / 10) ++ "." ++ toString (m % 10)
  if n < 0 then "-" ++ s else s

def score_opportunity_with_breakdown (state : ProspectState)
    (signals : ExtractedSignals) : ℚ × List BreakdownItem × String :=
  let score := score_opportunity state signals
  let items := score_breakdown state
  let label := label_from_score score
  let positives := items.filter (fun i => decide (0 < i.points))
  let negatives := items.filter (fun i => decide (i.points < 0))
  let parts0 := ["Score: " ++ fmtFixed1 score ++ "/10 (" ++ label ++ ")."]
  let parts1 :=
    if ¬ positives.isEmpty then
      parts0 ++ ["Positives: " ++ pyJoin "; " (positives.map (·.reason)) ++ "."]
    else parts0
  let parts2 :=
    if ¬ negatives.isEmpty then
      parts1 ++ ["Deductions: " ++ pyJoin "; " (negatives.map (·.reason)) ++ "."]
    else parts1
  let parts3 :=
    if positives.isEmpty ∧ negatives.isEmpty then
      parts2 ++ ["No qualification signals gathered."]
    else parts2
  (score, items, pyJoin " " parts3)

/-! ## Decision engine (`domain/decision_engine.py`) -/

/-- `_SLOT_GOALS` lookup with the `.get` default. -/
def _slot_goal (slot : String) : String :=
  if slot = "pain" then
    "Ask about current challenges and pain points in their workflow"
  else if slot = "company_size" then
    "Ask about team or company size to understand scale"
  else if slot = "authority" then
    "Determine if the prospect is the decision-maker"
  else if slot = "budget" then
    "Explore whether budget is available for a solution"
  else if slot = "timeline" then
    "Understand their timeline for implementing a solution"
  else "Probe for information about " ++ slot

/-- `_OBJECTION_GOALS` lookup with the `.get` default. -/
def _objection_goal (objection_type : String) : String :=
  if objection_type = "not_interested" then
    "Acknowledge disinterest, ask one clarifying question about their current approach"
  else if objection_type = "already_have_tool" then
    "Acknowledge their current tool, explore gaps or frustrations with it"
  else if objection_type = "too_expensive" then
    "Reframe around ROI and value, ask what budget range would work"
  else if objection_type = "send_email" then
    "Agree to send info, but first ask one qualifying question"
  else if objection_type = "busy" then
    "Respect their time, offer to schedule a brief 5-min follow-up"
  else
    "Address the '" ++ objection_type ++ "' objection with empathy and a pivot question"

/-- `_pick_best_slot` — first `SLOT_PRIORITY` entry in `missing`, else
`missing[0]` (the Python fallback; never reached with a non-empty
`missing`).  The `state` argument is unused in the source too. -/
def _pick_best_slot (missing : List String) (state : ProspectState) : String :=
  match SLOT_PRIORITY.find? (fun slot => missing.contains slot) with
  | some slot => slot
  | none => missing.headD ""

/-- Rules 4-6 of `decide_next_action` (the code after the objection block):
close, probe the next missing slot, fallback.  `reasons` is the reason list
accumulated so far (an `OBJECTION_SKIPPED_*` code when the objection block
fell through). -/
def decideTail (state : ProspectState) (reasons : List String) : Action :=
  if state.missing_slots = [] ∧ 6 ≤ state.interest_score then
    { type := "CLOSE", slot := none,
      message_goal := "Propose next step — all qualifications met",
      reason_codes := reasons ++ ["ALL_SLOTS_FILLED", "SCORE_STRONG_ENOUGH"] }
  else if state.missing_slots ≠ [] then
    let probe :=
      if state.stage = CallStage.INTRO then
        ("pain", reasons ++ ["INTRO_TO_DISCOVERY"])
      else
        (_pick_best_slot state.missing_slots state, reasons)
    { type := "ASK_SLOT", slot := some probe.1,
      message_goal := _slot_goal probe.1,
      reason_codes := probe.2 ++ ["MISSING_SLOT_" ++ pyUpper probe.1] }
  else
    { type := "END", slot := none,
      message_goal := "No further actions available — end call gracefully",
      reason_codes := reasons ++ ["FALLBACK_NO_ACTION"] }

/-- `decide_next_action` — the strict priority cascade.  `prior_objections`
is the Python `set[str] | None` parameter (`None` becomes the empty set);
`signals.objection_type` is truthy when present and non-empty. -/
def decide_next_action (state : ProspectState) (signals : ExtractedSignals)
    (prior_objections : Option (Finset String)) : Action :=
  let prior := prior_objections.getD ∅
  if signals.intent = "end" then
    { type := "END", slot := none,
      message_goal := "Wrap up politely — prospect signaled end of call",
      reason_codes := ["USER_ENDED"] }
  else if 10 ≤ state.turn_count then
    { type := "END", slot := none,
      message_goal := "Wrap up — reached maximum turns for this call",
      reason_codes := ["TURN_LIMIT_REACHED"] }
  else if state.missing_slots = [] ∧ state.interest_score < 4 then
    { type := "END", slot := none,
      message_goal := "Thank prospect and end — lead is too weak to pursue",
      reason_codes := ["ALL_SLOTS_FILLED", "SCORE_TOO_LOW"] }
  else
    match signals.objection_type with
    | some cat =>
      if signals.intent = "objection" ∧ cat ≠ "" then
        if cat = "busy" then
          { type := "END", slot := none,
            message_goal :=
              "Agree to call back at the time they requested and say a friendly goodbye",
            reason_codes := ["CALLBACK_REQUESTED"] }
        else if cat ∉ prior ∧ prior.card < 2 then
          { type := "HANDLE_OBJECTION", slot := none,
            message_goal := _objection_goal cat,
            reason_codes := ["OBJECTION_" ++ pyUpper cat] }
        else
          decideTail state ["OBJECTION_SKIPPED_" ++ pyUpper cat]
      else
        decideTail state []
    | none => decideTail state []

/-- `next_stage_from_action` — the stage machine. -/
def next_stage_from_action (current : CallStage) (action : Action) : CallStage :=
  if action.type = "END" then CallStage.END
  else if action.type = "CLOSE" then CallStage.CLOSE
  else if action.type = "HANDLE_OBJECTION" then CallStage.OBJECTION
  else if action.type = "ASK_SLOT" then
    if current = CallStage.INTRO then CallStage.DISCOVERY
    else if current = CallStage.OBJECTION then CallStage.QUALIFY
    else CallStage.QUALIFY
  else current

/-! ## Template wording (`usecases/process_input.py`, `_generate_agent_text`) -/

/-- `_SLOT_QUESTIONS` lookup with its default. -/
def _slot_question (slot : String) : String :=
  if slot = "pain" then
    "I'd love to understand your current workflow better. What's the biggest challenge your team faces with outbound right now?"
  else if slot = "company_size" then
    "That's helpful context. Roughly how large is your team — how many people are involved in outbound?"
  else if slot = "authority" then
    "Got it. And when it comes to evaluating a new tool like this, are you the one who makes that call, or is there someone else involved?"
  else if slot = "budget" then
    "Makes sense. Is there budget set aside for improving your outbound process, or is that something you'd need to get approved?"
  else if slot = "timeline" then
    "Understood. If this were a good fit, what would your timeline look like for getting something like this up and running?"
  else "Can you tell me more about your " ++ slot ++ "?"

/-- `_OBJECTION_RESPONSES` lookup with its default. -/
def _objection_response (obj_type : String) : String :=
  if obj_type = "not_interested" then
    "I totally understand — I wouldn't want to waste your time. Just out of curiosity, how is your team currently handling outbound? I ask because a lot of teams in your space have told us about similar frustrations."
  else if obj_type = "already_have_tool" then
    "That's great that you already have something in place! A lot of our customers actually came from other tools. What would you say is the one thing you wish worked better with your current setup?"
  else if obj_type = "too_expensive" then
    "I hear you on cost — it's always a factor. Most of our customers find the ROI pays for itself within the first quarter. What does your current cost per qualified meeting look like?"
  else if obj_type = "send_email" then
    "Absolutely, I'll send that over right after this. Before I do — just so I can tailor the info — what's the biggest pain point you'd want a solution to address?"
  else if obj_type = "busy" then
    "Totally respect that. I can absolutely call you back — would the time you mentioned work, or is there a better slot?"
  else
    "I understand your concern. Could you help me understand a bit more about what's holding you back?"

def _CLOSE_TEXT : String :=
  "Based on everything you've shared, it sounds like there could be a really strong fit here. Would you be open to a 30-minute demo this week so I can show you exactly how this would work for your team?"

/-- `_END_TEXTS` keyed by reason code. -/
def _end_text (reason : String) : Option String :=
  if reason = "USER_ENDED" then
    some "Totally understand. Thanks for taking the time to chat — I really appreciate it. Have a great rest of your day!"
  else if reason = "TURN_LIMIT_REACHED" then
    some "I know I've taken a lot of your time, so I'll let you go. Thanks for the conversation — I'll follow up with a summary. Have a great day!"
  else if reason = "ALL_SLOTS_FILLED" then
    some "I appreciate you sharing all of that. It sounds like the timing might not be right just now, but I'd love to stay in touch. I'll send over some info — thanks for your time!"
  else if reason = "SCORE_TOO_LOW" then
    some "I appreciate your honesty. It sounds like this might not be the best fit right now, and that's totally okay. I'll send some info in case anything changes down the road. Thanks for your time!"
  else if reason = "SILENCE_TIMEOUT" then
    some "It seems like we've lost you — no worries at all! I'll follow up with an email. Thanks for your time!"
  else none

def _END_DEFAULT : String :=
  "Thanks so much for the conversation. I'll follow up with a summary and next steps. Have a great day!"

/-- `_generate_agent_text` — deterministic template wording; `action.slot`
and `signals.objection_type or "unknown"` follow Python truthiness. -/
def _generate_agent_text (action : Action) (state : ProspectState)
    (signals : ExtractedSignals) : String :=
  if action.type = "ASK_SLOT" ∧ pyTruthy action.slot then
    _slot_question (action.slot.getD "")
  else if action.type = "HANDLE_OBJECTION" then
    _objection_response
      (match signals.objection_type with
       | some t => if t = "" then "unknown" else t
       | none => "unknown")
  else if action.type = "CLOSE" then _CLOSE_TEXT
  else if action.type = "END" then
    match action.reason_codes.findSome? _end_text with
    | some t => t
    | none => _END_DEFAULT
  else _END_DEFAULT

/-! ## Outcome builder (`domain/outcome.py`) -/

/-- The outcome dict `build_outcome` assembles. -/
structure Outcome where
  learned_fields : LearnedFields
  opportunity_score : ℚ
  opportunity_label : String
  recommended_next_action : String
  summary : String
  score_breakdown : List BreakdownItem
  score_explanation : String
  decision_trace : List TraceTurn
deriving DecidableEq

/-- `_recommended_next_action`. -/
def _recommended_next_action (state : ProspectState) (score : ℚ)
    (label : String) : String :=
  let filled := state.filled_slots.length
  if filled = 0 then "Re-attempt call with revised opener"
  else if label = "Strong" then
    if state.learned_fields.authority = some true then
      "Fast-track to demo with decision-maker"
    else "Schedule discovery call with AE to reach decision-maker"
  else if label = "Medium" then "Schedule discovery call with AE"
  else if state.objections.contains "not_interested" then
    "Move to nurture track; re-engage in 60 days"
  else "Nurture via email drip; re-engage in 30 days"

/-- `_build_summary` — the fixed-template narrative (`total = 5`;
`trace.ended_reason or "agent decision"` follows Python truthiness). -/
def _build_summary (state : ProspectState) (score : ℚ) (label : String)
    (next_action : String) (trace : DecisionTrace) : String :=
  let filled := state.filled_slots.length
  let turns := trace.turns.length
  let ended :=
    match trace.ended_reason with
    | some s => if s = "" then "agent decision" else s
    | none => "agent decision"
  let parts :=
    ["Cold-call simulation completed in " ++ toString turns ++
       " turns (ended: " ++ ended ++ ").",
     "Gathered " ++ toString filled ++ "/5 qualification fields."]
  let parts :=
    if state.objections ≠ [] then
      parts ++ ["Objections encountered: " ++ pyJoin ", " state.objections ++ "."]
    else parts
  let parts :=
    parts ++ ["Opportunity rated '" ++ label ++ "' (" ++ fmtFixed1 score ++ "/10)."]
  let parts := parts ++ ["Recommendation: " ++ next_action ++ "."]
  pyJoin " " parts

/-- `build_outcome` — assemble the final structured outcome
(`round(final_score, 1)` becomes `round1`). -/
def build_outcome (state : ProspectState) (trace : DecisionTrace) : Outcome :=
  let swb := score_opportunity_with_breakdown state ExtractedSignals.init
  let final_score := swb.1
  let breakdown := swb.2.1
  let explanation := swb.2.2
  let label := label_from_score final_score
  let next_action := _recommended_next_action state final_score label
  let summary := _build_summary state final_score label next_action trace
  { learned_fields := state.learned_fields,
    opportunity_score := round1 final_score,
    opportunity_label := label,
    recommended_next_action := next_action,
    summary := summary,
    score_breakdown := breakdown,
    score_explanation := explanation,
    decision_trace := trace.turns }

/-! ## Session store (`infra/session_store.py`)

The in-memory dict becomes an association list keyed by session id; the
wall-clock bookkeeping (`last_user_at`) and `prospect_mode` play no part in
the functions modelled here and are omitted. -/

/-- One stored session: live state, trace, status, outcome. -/
structure Session where
  state : ProspectState
  trace : DecisionTrace
  status : String
  outcome : Option Outcome
deriving DecidableEq

abbrev Store := List (String × Session)

/-- `get_session`. -/
def get_session (store : Store) (session_id : String) : Option Session :=
  (store.find? (fun p => p.1 == session_id)).map (·.2)

/-- `save_session` — persist updated state and trace (only when the id is
present, as in the source). -/
def save_session (store : Store) (session_id : String) (state : ProspectState)
    (trace : DecisionTrace) : Store :=
  store.map (fun p =>
    if p.1 == session_id then (p.1, { p.2 with state := state, trace := trace })
    else p)

/-- `set_outcome` — mark completed and store the final outcome. -/
def set_outcome (store : Store) (session_id : String) (outcome : Outcome) : Store :=
  store.map (fun p =>
    if p.1 == session_id then
      (p.1, { p.2 with status := "completed", outcome := some outcome })
    else p)

/-! ## End-call use case (`usecases/end_call.py`) -/

/-- The non-idempotent tail of `end_call`: set `trace.ended_reason` (Python
`trace.ended_reason or ended_reason`), build the outcome, persist it.  The
mutated trace is returned alongside, since Python mutates it in place. -/
def _finalize_call (store : Store) (session_id : String)
    (state : ProspectState) (trace : DecisionTrace) (ended_reason : String) :
    Outcome × DecisionTrace × Store :=
  let er :=
    match trace.ended_reason with
    | some s => if s = "" then ended_reason else s
    | none => ended_reason
  let trace2 := { trace with ended_reason := some er }
  let outcome := build_outcome state trace2
  (outcome, trace2, set_outcome store session_id outcome)

/-- `end_call` — build the outcome and mark the session completed; when the
session is already completed with a stored outcome it returns that outcome
unchanged (a `build_outcome` dict is never empty, so Python's truthiness test
on it is its presence). -/
def end_call (store : Store) (session_id : String) (state : ProspectState)
    (trace : DecisionTrace) (ended_reason : String) :
    Outcome × DecisionTrace × Store :=
  match get_session store session_id with
  | some session =>
    match session.outcome with
    | some stored =>
      if session.status = "completed" then (stored, trace, store)
      else _finalize_call store session_id state trace ended_reason
    | none => _finalize_call store session_id state trace ended_reason
  | none => _finalize_call store session_id state trace ended_reason

/-! ## Process-input use case (`usecases/process_input.py`)

Modelled in the deterministic reference mode (`FORCE_RULE_BASED`, the mode
the repository's demos and evals run): extraction is
`extract_signals_rule_based` and wording `_generate_agent_text`; the LLM
providers are external collaborators whose failure path falls back to
exactly this pair.  `settings.llm_min_confidence` is 0.35.  Python saves the
session before setting `trace.ended_reason`, but the saved trace is the same
mutated object, so the stored trace carries the reason; the model orders the
two writes accordingly. -/

def llm_min_confidence : ℚ := 35/100

/-- The turn response dict (`status`, `agent_text`, `opportunity_score`,
`ended`, `outcome`); the session-not-found dict becomes `Except.error`. -/
structure TurnResponse where
  status : String
  agent_text : Option String
  opportunity_score : ℚ
  ended : Bool
  outcome : Option Outcome
deriving DecidableEq

/-- `process_input` — one user turn against the store. -/
def process_input (store : Store) (session_id : String) (user_text : String) :
    Except String (TurnResponse × Store) :=
  match get_session store session_id with
  | none => Except.error "session_not_found"
  | some session =>
    if session.status = "completed" then
      match session.outcome with
      | some stored =>
        Except.ok
          ({ status := "completed", agent_text := none,
             opportunity_score := stored.opportunity_score, ended := true,
             outcome := some stored }, store)
      | none => Except.error "completed_session_has_no_outcome"
    else
      let state0 := session.state
      let trace0 := session.trace
      let state1 :=
        { state0 with turn_count := state0.turn_count + 1,
                      last_user_text := some user_text }
      let signals := extract_signals_rule_based user_text
      let score_before := state1.interest_score
      let objections_before := state1.objections.toFinset
      let state2 := state1.update_from_signals signals llm_min_confidence
      let score_after := score_opportunity state2 signals
      let state3 := { state2 with interest_score := score_after }
      let action := decide_next_action state3 signals (some objections_before)
      let stage_before := state3.stage
      let stage_after := next_stage_from_action state3.stage action
      let state4 := { state3 with stage := stage_after }
      let agent_text := _generate_agent_text action state4 signals
      let state5 := { state4 with last_agent_text := some agent_text }
      let trace1 :=
        trace0.add_turn state5.turn_count (some user_text) (some agent_text)
          signals action score_before score_after stage_before stage_after
          "rule_based" "template"
      if action.type = "END" ∨ action.type = "CLOSE" then
        let reason := action.reason_codes.headD "agent_decision"
        let trace2 := { trace1 with ended_reason := some reason }
        let store1 := save_session store session_id state5 trace2
        let fin := end_call store1 session_id state5 trace2 reason
        Except.ok
          ({ status := "completed", agent_text := some agent_text,
             opportunity_score := round1 score_after, ended := true,
             outcome := some fin.1 }, fin.2.2)
      else
        let store1 := save_session store session_id state5 trace1
        Except.ok
          ({ status := "running", agent_text := some agent_text,
             opportunity_score := round1 score_after, ended := false,
             outcome := none }, store1)

/-! ## Concrete inputs used by the closed theorems below -/

def lfOnlySize50 : LearnedFields :=
  { LearnedFields.init with company_size := some 50 }

/-- A mid-call state whose `company_size` slot was filled with 50. -/
def c1State : ProspectState :=
  { ProspectState.init with
      stage := .QUALIFY, turn_count := 3, learned_fields := lfOnlySize50 }

/-- All five slots filled; `score_opportunity` of these fields is exactly 5
(pain 8 → +2, size 10 → +0, authority true → +2, budget false → +0,
timeline → +1), so the stored `interest_score` is the recomputed one. -/
def lfScore5 : LearnedFields :=
  { company_size := some 10, pain := some 8, budget := some false,
    authority := some true, timeline := some "q1" }

def fallbackState : ProspectState :=
  { ProspectState.init with
      stage := .QUALIFY, turn_count := 4, learned_fields := lfScore5,
      interest_score := 5 }

/-- Same slots, stored score 4 (the low edge of the fallback gap). -/
def fallbackEdgeState : ProspectState :=
  { ProspectState.init with
      stage := .QUALIFY, turn_count := 4, learned_fields := lfScore5,
      interest_score := 4 }

def tlState : ProspectState := { ProspectState.init with turn_count := 10 }

def closeOnlyAction : Action :=
  { type := "CLOSE", slot := none, message_goal := "", reason_codes := [] }

def endOnlyAction : Action :=
  { type := "END", slot := none, message_goal := "", reason_codes := [] }

/-! ## C1 -/

/-- C1: the claimed correction/high-confidence overwrite path does not exist
in `ProspectState.update_from_signals`: the correction utterance
"Actually we're 200 people, I misspoke." extracts `company_size = 200` with
confidence 0.7 (above the 0.35 floor), yet merging it into a state whose
`company_size` is already 50 leaves the slot at 50 — filled slots are never
overwritten (`ExtractedSignals` has no `is_correction` field at all). -/
theorem update_signals_never_overwrites_company_size :
    (extract_signals_rule_based "Actually we're 200 people, I misspoke.").company_size =
        some 200 ∧
      llm_min_confidence ≤
        (extract_signals_rule_based "Actually we're 200 people, I misspoke.").confidence ∧
      (c1State.update_from_signals
            (extract_signals_rule_based "Actually we're 200 people, I misspoke.")
            llm_min_confidence).learned_fields.company_size = some 50 := by
  decide

/-! ## C2 -/

/-- C2: with `turn_count ≥ 10` the decision engine always returns an END
action, and whenever the signals' intent is not "end" its first reason code
is TURN_LIMIT_REACHED. -/
theorem turn_limit_forces_end (state : ProspectState)
    (signals : ExtractedSignals) (prior : Option (Finset String))
    (h : 10 ≤ state.turn_count) :
    (decide_next_action state signals prior).type = "END" ∧
      (signals.intent ≠ "end" →
        (decide_next_action state signals prior).reason_codes.head? =
          some "TURN_LIMIT_REACHED") := by
  unfold decide_next_action
  by_cases hend : signals.intent = "end"
  · simp [hend]
  · simp [hend, h]

/-- C2 witness: a state at exactly 10 turns with default signals. -/
theorem turn_limit_forces_end_witness :
    (decide_next_action tlState ExtractedSignals.init none).type = "END" ∧
      (ExtractedSignals.init.intent ≠ "end" →
        (decide_next_action tlState ExtractedSignals.init none).reason_codes.head? =
          some "TURN_LIMIT_REACHED") :=
  turn_limit_forces_end tlState ExtractedSignals.init none (by decide)

/-! ## C4 -/

/-- C4 (amended): from the END stage the stage machine stays at END for END
actions and for any unrecognized action type — but not for CLOSE,
HANDLE_OBJECTION or ASK_SLOT actions, which the function maps by action type
alone. -/
theorem end_stage_absorbing_without_transition_action (a : Action)
    (h1 : a.type ≠ "CLOSE") (h2 : a.type ≠ "HANDLE_OBJECTION")
    (h3 : a.type ≠ "ASK_SLOT") :
    next_stage_from_action CallStage.END a = CallStage.END := by
  unfold next_stage_from_action
  split_ifs <;> rfl

/-- C4 counterexample: a CLOSE action moves the END stage to CLOSE, so END
is not absorbing under `next_stage_from_action` for every action. -/
theorem end_stage_close_action_counterexample :
    next_stage_from_action CallStage.END closeOnlyAction = CallStage.CLOSE ∧
      CallStage.CLOSE ≠ CallStage.END := by
  decide

/-- C4 witness: an END action at the END stage. -/
theorem end_stage_absorbing_witness :
    next_stage_from_action CallStage.END endOnlyAction = CallStage.END :=
  end_stage_absorbing_without_transition_action endOnlyAction (by decide)
    (by decide) (by decide)

/-! ## C8 -/

/-- C8: the utterance "yeah" extracts to `off_topic` with confidence 0.3 and
no slot content, and merging those signals leaves the state — in particular
every entry of `learned_fields` — unchanged, for every state (so also right
after the agent probed for "pain") and every confidence floor. -/
theorem yeah_fills_no_slots (state : ProspectState) (min_confidence : ℚ) :
    extract_signals_rule_based "yeah" =
        { intent := "off_topic", company_size := none, pain := none,
          budget := none, authority := none, timeline := none,
          objection_type := none, confidence := 3/10 } ∧
      state.update_from_signals (extract_signals_rule_based "yeah")
          min_confidence = state := by
  have h : extract_signals_rule_based "yeah" =
      { intent := "off_topic", company_size := none, pain := none,
        budget := none, authority := none, timeline := none,
        objection_type := none, confidence := 3/10 } := by decide
  refine ⟨h, ?_⟩
  rw [h]
  unfold ProspectState.update_from_signals
  simp

/-! ## C10 -/

/-- C10: `score_opportunity` never reads its `signals` argument — the score
is a function of the accumulated state alone. -/
theorem score_opportunity_ignores_signals (state : ProspectState)
    (s1 s2 : ExtractedSignals) :
    score_opportunity state s1 = score_opportunity state s2 := rfl

/-! ## C7 -/

/-- `label_from_score` hits each label exactly on its interval. -/
theorem label_cases (q : ℚ) :
    (label_from_score q = "Weak" ↔ q < 4) ∧
      (label_from_score q = "Medium" ↔ 4 ≤ q ∧ q < 7) ∧
      (label_from_score q = "Strong" ↔ 7 ≤ q) := by
  unfold label_from_score
  split_ifs with h1 h2
  · refine ⟨iff_of_true rfl h1, iff_of_false (by decide) ?_, iff_of_false (by decide) ?_⟩
    · rintro ⟨h4, _⟩
      exact absurd h1 (not_lt.mpr h4)
    · intro h7
      exact absurd h1 (not_lt.mpr (by linarith))
  · refine ⟨iff_of_false (by decide) h1, iff_of_true rfl ⟨le_of_not_lt h1, h2⟩,
      iff_of_false (by decide) ?_⟩
    intro h7
    exact (not_lt.mpr h7) h2
  · exact ⟨iff_of_false (by decide) h1, iff_of_false (by decide) (fun hm => h2 hm.2),
      iff_of_true rfl (le_of_not_lt h2)⟩

/-- C7: the opportunity score always lies in [0, 10], and the label is
"Weak" iff score < 4, "Medium" iff 4 ≤ score < 7, "Strong" iff score ≥ 7
(hence, with the bound, iff 7 ≤ score ≤ 10). -/
theorem score_bounds_and_label_thresholds (state : ProspectState)
    (signals : ExtractedSignals) :
    0 ≤ score_opportunity state signals ∧
      score_opportunity state signals ≤ 10 ∧
      (label_from_score (score_opportunity state signals) = "Weak" ↔
        score_opportunity state signals < 4) ∧
      (label_from_score (score_opportunity state signals) = "Medium" ↔
        4 ≤ score_opportunity state signals ∧ score_opportunity state signals < 7) ∧
      (label_from_score (score_opportunity state signals) = "Strong" ↔
        7 ≤ score_opportunity state signals) := by
  have h0 : 0 ≤ score_opportunity state signals := le_max_left _ _
  have h10 : score_opportunity state signals ≤ 10 :=
    max_le (by norm_num) (min_le_left _ _)
  obtain ⟨hW, hM, hS⟩ := label_cases (score_opportunity state signals)
  exact ⟨h0, h10, hW, hM, hS⟩

/-! ## C9 -/

/-- C9: finalization is idempotent.  Against a session already marked
completed with a stored outcome, `end_call` returns exactly the stored
outcome with trace and store untouched, and `process_input` returns the
stored outcome with `ended = true` instead of re-finalizing or failing. -/
theorem end_call_idempotent_on_completed_session
    (store : Store) (session_id user_text ended_reason : String)
    (state : ProspectState) (trace : DecisionTrace) (sess : Session)
    (o : Outcome)
    (hget : get_session store session_id = some sess)
    (hstatus : sess.status = "completed")
    (houtcome : sess.outcome = some o) :
    end_call store session_id state trace ended_reason = (o, trace, store) ∧
      process_input store session_id user_text =
        Except.ok ({ status := "completed", agent_text := none,
                     opportunity_score := o.opportunity_score, ended := true,
                     outcome := some o }, store) := by
  constructor
  · unfold end_call
    simp [hget, houtcome, hstatus]
  · unfold process_input
    simp [hget, hstatus, houtcome]

def wOutcome : Outcome :=
  { learned_fields := LearnedFields.init, opportunity_score := 0,
    opportunity_label := "Weak",
    recommended_next_action := "Re-attempt call with revised opener",
    summary := "", score_breakdown := [], score_explanation := "",
    decision_trace := [] }

def wTrace : DecisionTrace :=
  { session_id := "s1", turns := [], ended_reason := some "USER_ENDED" }

def wSession : Session :=
  { state := ProspectState.init, trace := wTrace, status := "completed",
    outcome := some wOutcome }

def wStore : Store := [("s1", wSession)]

/-- C9 witness: a one-session store whose session is completed. -/
theorem end_call_idempotent_witness :
    end_call wStore "s1" ProspectState.init wTrace "simulation_complete" =
        (wOutcome, wTrace, wStore) ∧
      process_input wStore "s1" "hello again" =
        Except.ok ({ status := "completed", agent_text := none,
                     opportunity_score := wOutcome.opportunity_score, ended := true,
                     outcome := some wOutcome }, wStore) :=
  end_call_idempotent_on_completed_session wStore "s1" "hello again"
    "simulation_complete" ProspectState.init wTrace wSession wOutcome
    (by decide) (by decide) (by decide)

/-! ## C3

String-prefix facts used to tell reason codes apart without knowing the
objection category or slot name they embed. -/

theorem skip_code_ne_fallback (x : String) :
    "OBJECTION_SKIPPED_" ++ x ≠ "FALLBACK_NO_ACTION" := by
  intro h
  have h1 : ("OBJECTION_SKIPPED_" ++ x).data.head? =
      "FALLBACK_NO_ACTION".data.head? := by rw [h]
  have h2 : ("OBJECTION_SKIPPED_" ++ x).data.head? = some 'O' := rfl
  have h3 : "FALLBACK_NO_ACTION".data.head? = some 'F' := rfl
  rw [h2, h3] at h1
  exact absurd (Option.some.inj h1) (by decide)

theorem obj_code_ne_fallback (x : String) :
    "OBJECTION_" ++ x ≠ "FALLBACK_NO_ACTION" := by
  intro h
  have h1 : ("OBJECTION_" ++ x).data.head? = "FALLBACK_NO_ACTION".data.head? := by
    rw [h]
  have h2 : ("OBJECTION_" ++ x).data.head? = some 'O' := rfl
  have h3 : "FALLBACK_NO_ACTION".data.head? = some 'F' := rfl
  rw [h2, h3] at h1
  exact absurd (Option.some.inj h1) (by decide)

theorem missing_code_ne_fallback (x : String) :
    "MISSING_SLOT_" ++ x ≠ "FALLBACK_NO_ACTION" := by
  intro h
  have h1 : ("MISSING_SLOT_" ++ x).data.head? = "FALLBACK_NO_ACTION".data.head? := by
    rw [h]
  have h2 : ("MISSING_SLOT_" ++ x).data.head? = some 'M' := rfl
  have h3 : "FALLBACK_NO_ACTION".data.head? = some 'F' := rfl
  rw [h2, h3] at h1
  exact absurd (Option.some.inj h1) (by decide)

/-- Rules 4-6 never produce a HANDLE_OBJECTION action. -/
theorem decideTail_type_ne_handle (state : ProspectState) (reasons : List String) :
    (decideTail state reasons).type ≠ "HANDLE_OBJECTION" := by
  unfold decideTail
  split_ifs <;> simp

/-- Rules 4-6 keep every already-accumulated reason code. -/
theorem decideTail_keeps_reasons (state : ProspectState) (reasons : List String)
    (r : String) (h : r ∈ reasons) :
    r ∈ (decideTail state reasons).reason_codes := by
  unfold decideTail
  split_ifs <;> simp [h]

/-- When rules 4-6 report FALLBACK_NO_ACTION (and it was not accumulated
earlier), every slot is filled and the score is below the close
threshold. -/
theorem decideTail_fallback_mem (state : ProspectState) (reasons : List String)
    (h : "FALLBACK_NO_ACTION" ∈ (decideTail state reasons).reason_codes)
    (hr : "FALLBACK_NO_ACTION" ∉ reasons) :
    state.missing_slots = [] ∧ state.interest_score < 6 := by
  unfold decideTail at h
  split_ifs at h with h1 h2 h3
  · rcases List.mem_append.mp h with h | h
    · exact absurd h hr
    · rcases List.mem_cons.mp h with h | h
      · exact absurd h (by decide)
      · exact absurd (List.mem_singleton.mp h) (by decide)
  · rcases List.mem_append.mp h with h | h
    · rcases List.mem_append.mp h with h | h
      · exact absurd h hr
      · exact absurd (List.mem_singleton.mp h) (by decide)
    · exact absurd (List.mem_singleton.mp h).symm (missing_code_ne_fallback _)
  · rcases List.mem_append.mp h with h | h
    · exact absurd h hr
    · exact absurd (List.mem_singleton.mp h).symm (missing_code_ne_fallback _)
  · have hmiss : state.missing_slots = [] := not_not.mp h2
    refine ⟨hmiss, ?_⟩
    by_contra hge
    exact h1 ⟨hmiss, le_of_not_lt hge⟩

/-- C3 (amended): the fallback branch is reachable, but only in the score
gap the cascade leaves open: a FALLBACK_NO_ACTION reason forces all five
slots filled, `4 ≤ interest_score < 6`, no end intent and `turn_count < 10`.
Every other input resolves through rules 1-6 without it. -/
theorem fallback_reason_requires_score_gap (state : ProspectState)
    (signals : ExtractedSignals) (prior : Option (Finset String))
    (h : "FALLBACK_NO_ACTION" ∈ (decide_next_action state signals prior).reason_codes) :
    state.missing_slots = [] ∧ 4 ≤ state.interest_score ∧
      state.interest_score < 6 ∧ signals.intent ≠ "end" ∧ state.turn_count < 10 := by
  unfold decide_next_action at h
  by_cases hend : signals.intent = "end"
  · simp [hend] at h
  · rw [if_neg hend] at h
    by_cases hturn : 10 ≤ state.turn_count
    · rw [if_pos hturn] at h
      simp at h
    · rw [if_neg hturn] at h
      by_cases hweak : state.missing_slots = [] ∧ state.interest_score < 4
      · rw [if_pos hweak] at h
        simp at h
      · rw [if_neg hweak] at h
        have key : state.missing_slots = [] ∧ state.interest_score < 6 := by
          cases hobj : signals.objection_type with
          | none =>
            rw [hobj] at h
            exact decideTail_fallback_mem _ _ h (by simp)
          | some cat =>
            rw [hobj] at h
            simp only [] at h
            by_cases hio : signals.intent = "objection" ∧ cat ≠ ""
            · rw [if_pos hio] at h
              by_cases hbusy : cat = "busy"
              · rw [if_pos hbusy] at h
                simp at h
              · rw [if_neg hbusy] at h
                by_cases hnew : cat ∉ prior.getD ∅ ∧ (prior.getD ∅).card < 2
                · rw [if_pos hnew] at h
                  exact absurd (List.mem_singleton.mp h).symm (obj_code_ne_fallback _)
                · rw [if_neg hnew] at h
                  refine decideTail_fallback_mem _ _ h ?_
                  intro hmem
                  exact absurd (List.mem_singleton.mp hmem).symm (skip_code_ne_fallback _)
            · rw [if_neg hio] at h
              exact decideTail_fallback_mem _ _ h (by simp)
        refine ⟨key.1, ?_, key.2, hend, lt_of_not_le hturn⟩
        by_contra hlt
        exact hweak ⟨key.1, lt_of_not_le hlt⟩

/-- C3 counterexample: with all five slots filled and score 5 (a value the
scorer itself produces for these fields), the engine returns the fallback
END action — the branch is reachable. -/
theorem fallback_reachable_counterexample :
    (decide_next_action fallbackState ExtractedSignals.init none).reason_codes =
        ["FALLBACK_NO_ACTION"] ∧
      (decide_next_action fallbackState ExtractedSignals.init none).type = "END" := by
  decide

/-- C3 witness: the necessity theorem applied at score 4. -/
theorem fallback_reason_requires_score_gap_witness :
    fallbackEdgeState.missing_slots = [] ∧
      4 ≤ fallbackEdgeState.interest_score ∧
      fallbackEdgeState.interest_score < 6 ∧
      ExtractedSignals.init.intent ≠ "end" ∧ fallbackEdgeState.turn_count < 10 :=
  fallback_reason_requires_score_gap fallbackEdgeState ExtractedSignals.init none
    (by decide)

/-! ## C6 -/

/-- C6: when an objection with a present, non-busy category arrives and no
earlier rule fires, the engine returns HANDLE_OBJECTION exactly when the
category is not in the prior-objection set and that set has fewer than two
members; otherwise the chosen action carries the
`OBJECTION_SKIPPED_<CATEGORY>` reason code (so at most two distinct
categories are ever handled in a call). -/
theorem objection_rule_handle_iff_new_and_under_cap (state : ProspectState)
    (signals : ExtractedSignals) (prior : Finset String) (cat : String)
    (hintent : signals.intent = "objection")
    (htype : signals.objection_type = some cat)
    (hbusy : cat ≠ "busy") (hne : cat ≠ "")
    (hturn : state.turn_count < 10)
    (hweak : ¬ (state.missing_slots = [] ∧ state.interest_score < 4)) :
    ((decide_next_action state signals (some prior)).type = "HANDLE_OBJECTION" ↔
        cat ∉ prior ∧ prior.card < 2) ∧
      (¬ (cat ∉ prior ∧ prior.card < 2) →
        ("OBJECTION_SKIPPED_" ++ pyUpper cat) ∈
          (decide_next_action state signals (some prior)).reason_codes) := by
  unfold decide_next_action
  rw [hintent, htype]
  rw [if_neg (by decide : ¬ ("objection" : String) = "end")]
  rw [if_neg (not_le.mpr hturn)]
  rw [if_neg hweak]
  simp only []
  rw [if_pos ⟨trivial, hne⟩]
  rw [if_neg hbusy]
  by_cases hnew : cat ∉ (some prior).getD ∅ ∧ ((some prior).getD ∅).card < 2
  · rw [if_pos hnew]
    simp only [Option.getD_some] at hnew
    exact ⟨iff_of_true rfl hnew, fun hcon => absurd hnew hcon⟩
  · rw [if_neg hnew]
    simp only [Option.getD_some] at hnew
    refine ⟨iff_of_false (decideTail_type_ne_handle _ _) hnew, fun _ => ?_⟩
    exact decideTail_keeps_reasons _ _ _ (List.mem_singleton.mpr rfl)

def c6State : ProspectState := { ProspectState.init with turn_count := 2 }

def c6Signals : ExtractedSignals :=
  { ExtractedSignals.init with
      intent := "objection", objection_type := some "too_expensive",
      confidence := 7/10 }

/-- C6 witness: a fresh call with a first `too_expensive` objection. -/
theorem objection_rule_handle_witness :
    ((decide_next_action c6State c6Signals (some ∅)).type = "HANDLE_OBJECTION" ↔
        "too_expensive" ∉ (∅ : Finset String) ∧ (∅ : Finset String).card < 2) ∧
      (¬ ("too_expensive" ∉ (∅ : Finset String) ∧ (∅ : Finset String).card < 2) →
        ("OBJECTION_SKIPPED_" ++ pyUpper "too_expensive") ∈
          (decide_next_action c6State c6Signals (some ∅)).reason_codes) :=
  objection_rule_handle_iff_new_and_under_cap c6State c6Signals ∅ "too_expensive"
    (by decide) (by decide) (by decide) (by decide) (by decide) (by decide)

/-! ## C5

The rescaled objection line-items.  `round(points * scale, 1)` rounds each
item to one decimal, so the itemized breakdown sums to the applied capped
penalty only up to one rounding step (±0.05) per line item — not exactly,
as the three-strong-objections counterexample shows. -/

theorem ratFloor_eq_intFloor (q : ℚ) : (Rat.floor q : ℤ) = ⌊q⌋ :=
  le_antisymm (Int.le_floor.mpr (Rat.le_floor.mp le_rfl))
    (Rat.le_floor.mpr (Int.floor_le q))

/-- Rounding to one decimal moves a value by at most 1/20. -/
theorem round1_err (q : ℚ) : |round1 q - q| ≤ 1/20 := by
  unfold round1 roundHalfEvenTenths
  have hfl : ((Rat.floor (q * 10) : ℤ) : ℚ) = ((⌊q * 10⌋ : ℤ) : ℚ) := by
    rw [ratFloor_eq_intFloor]
  have hle : ((⌊q * 10⌋ : ℤ) : ℚ) ≤ q * 10 := Int.floor_le _
  have hlt : q * 10 < (⌊q * 10⌋ : ℤ) + 1 := Int.lt_floor_add_one _
  split_ifs with h1 h2 h3
  · rw [hfl] at h1
    rw [abs_le]
    rw [hfl]
    constructor <;> linarith
  · rw [hfl] at h1 h2
    rw [abs_le]
    push_cast
    rw [hfl]
    constructor <;> linarith
  · rw [hfl] at h1 h2
    have heq : q * 10 - ((⌊q * 10⌋ : ℤ) : ℚ) = 1/2 :=
      le_antisymm (le_of_not_lt h2) (le_of_not_lt h1)
    rw [abs_le]
    rw [hfl]
    constructor <;> linarith
  · rw [hfl] at h1 h2
    have heq : q * 10 - ((⌊q * 10⌋ : ℤ) : ℚ) = 1/2 :=
      le_antisymm (le_of_not_lt h2) (le_of_not_lt h1)
    rw [abs_le]
    push_cast
    rw [hfl]
    constructor <;> linarith

theorem sum_round1_err (l : List ℚ) :
    |(l.map round1).sum - l.sum| ≤ (l.length : ℚ) * (1/20) := by
  induction l with
  | nil => simp
  | cons a rest ih =>
    simp only [List.map_cons, List.sum_cons, List.length_cons]
    have hre : (round1 a + (rest.map round1).sum) - (a + rest.sum) =
        (round1 a - a) + ((rest.map round1).sum - rest.sum) := by ring
    rw [hre]
    calc |(round1 a - a) + ((rest.map round1).sum - rest.sum)|
        ≤ |round1 a - a| + |(rest.map round1).sum - rest.sum| := abs_add _ _
      _ ≤ 1/20 + (rest.length : ℚ) * (1/20) := add_le_add (round1_err a) ih
      _ = ((rest.length + 1 : ℕ) : ℚ) * (1/20) := by push_cast; ring

theorem sum_map_mul_const (l : List ℚ) (s : ℚ) :
    (l.map (fun q => q * s)).sum = l.sum * s := by
  induction l with
  | nil => simp
  | cons a rest ih =>
    simp [ih]
    ring

theorem objItems_field (l : List String) :
    ∀ it ∈ objItems l, it.field = "objection" := by
  induction l with
  | nil =>
    intro it h
    simp [objItems] at h
  | cons a rest ih =>
    intro it h
    unfold objItems at h
    split_ifs at h
    · rcases List.mem_cons.mp h with h | h
      · simp [h]
      · exact ih it h
    · rcases List.mem_cons.mp h with h | h
      · simp [h]
      · exact ih it h
    · exact ih it h

/-- The raw objection items' points sum to minus the raw penalty — the two
loops of `score_breakdown` and `score_opportunity` accumulate in step. -/
theorem objItems_points_sum (l : List String) :
    ((objItems l).map BreakdownItem.points).sum = -(objPenalty l) := by
  induction l with
  | nil => simp [objItems, objPenalty]
  | cons a rest ih =>
    unfold objItems objPenalty
    split_ifs with h1 h2 <;> simp [ih] <;> ring

theorem objPenalty_zero_of_no_items (l : List String)
    (h : objItems l = []) : objPenalty l = 0 := by
  induction l with
  | nil => simp [objPenalty]
  | cons a rest ih =>
    unfold objItems at h
    unfold objPenalty
    split_ifs at h ⊢ with h1 h2
    all_goals first
      | exact absurd h (List.cons_ne_nil _ _)
      | (rw [ih h]; ring)

theorem painItems_no_objection (lf : LearnedFields) :
    (painItems lf).filter (fun it => it.field == "objection") = [] := by
  unfold painItems
  cases lf.pain with
  | none => rfl
  | some p =>
    simp only []
    split_ifs <;> rfl

theorem sizeItems_no_objection (lf : LearnedFields) :
    (sizeItems lf).filter (fun it => it.field == "objection") = [] := by
  unfold sizeItems
  cases lf.company_size with
  | none => rfl
  | some n =>
    simp only []
    split_ifs <;> rfl

theorem authorityItems_no_objection (lf : LearnedFields) :
    (authorityItems lf).filter (fun it => it.field == "objection") = [] := by
  unfold authorityItems
  split_ifs <;> rfl

theorem budgetItems_no_objection (lf : LearnedFields) :
    (budgetItems lf).filter (fun it => it.field == "objection") = [] := by
  unfold budgetItems
  split_ifs <;> rfl

theorem timelineItems_no_objection (lf : LearnedFields) :
    (timelineItems lf).filter (fun it => it.field == "objection") = [] := by
  unfold timelineItems
  cases lf.timeline with
  | none => rfl
  | some t =>
    simp only []
    split_ifs <;> rfl

/-- C5 (amended): when the raw objection penalty exceeds 2.0, the objection
line-items of `score_breakdown` are rescaled by `2 / penalty` and rounded to
one decimal, so their points sum to the applied capped penalty of −2.0 only
up to 1/20 per line item (the per-item rounding of `round(…, 1)`), not
exactly. -/
theorem objection_breakdown_sum_within_rounding (state : ProspectState)
    (hcap : 2 < objPenalty state.objections) :
    |(((score_breakdown state).filter (fun it => it.field == "objection")).map
        BreakdownItem.points).sum + 2| ≤
      (((score_breakdown state).filter
          (fun it => it.field == "objection")).length : ℚ) * (1/20) := by
  have hpenpos : (0 : ℚ) < objPenalty state.objections := by linarith
  have hpen0 : objPenalty state.objections ≠ 0 := ne_of_gt hpenpos
  have hne : ¬ (objItems state.objections).isEmpty := by
    intro hempty
    rw [List.isEmpty_iff] at hempty
    rw [objPenalty_zero_of_no_items _ hempty] at hcap
    norm_num at hcap
  have hcapped : cappedObjItems state.objections =
      (objItems state.objections).map
        (fun it => { it with
          points := round1 (it.points * (2 / objPenalty state.objections)) }) := by
    unfold cappedObjItems
    rw [if_pos ⟨hcap, hne⟩]
  have hfields : ∀ it ∈ cappedObjItems state.objections,
      (it.field == "objection") = true := by
    intro it h
    rw [hcapped] at h
    rcases List.mem_map.mp h with ⟨it0, h0, rfl⟩
    simp [objItems_field _ it0 h0]
  have hfilter : (score_breakdown state).filter (fun it => it.field == "objection") =
      cappedObjItems state.objections := by
    unfold score_breakdown
    simp only [List.filter_append, painItems_no_objection, sizeItems_no_objection,
      authorityItems_no_objection, budgetItems_no_objection,
      timelineItems_no_objection, List.filter_eq_self.mpr hfields,
      List.nil_append]
  rw [hfilter, hcapped]
  rw [List.map_map, List.length_map]
  have hcompose : (objItems state.objections).map
      (BreakdownItem.points ∘ fun it =>
        { it with points := round1 (it.points * (2 / objPenalty state.objections)) }) =
      (((objItems state.objections).map BreakdownItem.points).map
        (fun q => q * (2 / objPenalty state.objections))).map round1 := by
    rw [List.map_map, List.map_map]
    rfl
  rw [hcompose]
  have hsum : (((objItems state.objections).map BreakdownItem.points).map
      (fun q => q * (2 / objPenalty state.objections))).sum = -2 := by
    rw [sum_map_mul_const, objItems_points_sum]
    field_simp
    ring
  have hlen : ((((objItems state.objections).map BreakdownItem.points).map
      (fun q => q * (2 / objPenalty state.objections))).length : ℚ) =
      ((objItems state.objections).length : ℚ) := by
    rw [List.length_map, List.length_map]
  have hbound := sum_round1_err
    (((objItems state.objections).map BreakdownItem.points).map
      (fun q => q * (2 / objPenalty state.objections)))
  rw [hsum, hlen] at hbound
  have hrw : (((((objItems state.objections).map BreakdownItem.points).map
      (fun q => q * (2 / objPenalty state.objections))).map round1).sum + 2) =
      ((((objItems state.objections).map BreakdownItem.points).map
        (fun q => q * (2 / objPenalty state.objections))).map round1).sum - (-2) := by
    ring
  rw [hrw]
  exact hbound

/-- The three strong objection categories. -/
def c5State : ProspectState :=
  { ProspectState.init with
      objections := ["not_interested", "already_have_tool", "too_expensive"] }

/-- C5 counterexample: three strong objections give a raw penalty of 3.0;
each item is rescaled to round(-2/3, 1) = -0.7, so the itemized objection
points sum to -2.1 while `score_opportunity` subtracts the capped 2.0. -/
theorem objection_breakdown_sum_counterexample :
    (((score_breakdown c5State).filter (fun it => it.field == "objection")).map
        BreakdownItem.points).sum = -21/10 ∧
      min (objPenalty c5State.objections) 2 = 2 ∧ (-21/10 : ℚ) ≠ -2 := by
  decide

/-- C5 witness: the rounding bound applied at the same three-objection
state. -/
theorem objection_breakdown_sum_within_rounding_witness :
    |(((score_breakdown c5State).filter (fun it => it.field == "objection")).map
        BreakdownItem.points).sum + 2| ≤
      (((score_breakdown c5State).filter
          (fun it => it.field == "objection")).length : ℚ) * (1/20) :=
  objection_breakdown_sum_within_rounding c5State (by decide)

end CallSim
